import Mathlib

/-!
Verification of the frame-synchronous input state engine (Go package `input`).

The Go module-level state and functions are embedded shallowly:

* fixed-size Go arrays (`[ActionLast]bool`, `[MaxPlayers]playerState`) become
  functions out of `Fin`;
* the Go slice `buffers : []inputState` becomes `List inputState`;
* Go machine integers are modelled as `Nat`/`Int`; the Go `%` operator on
  `int` is truncated remainder, i.e. `Int.tmod` (overflow of 64-bit ints is
  out of scope: every tick considered here is far from `2^63`);
* `float32` axis values and thresholds are modelled as `ℚ`; the only
  operations performed on them by the source (multiplication by a direction
  in `{-1, 0, 1}` and comparison) are exact in IEEE float32 for the constant
  values appearing in the claims, so `ℚ` is faithful there;
* code that can panic (out-of-range slice/array indexing, failed type
  assertion in `Unserialize`) returns `Option`, with `none` marking the
  panic;
* the GLFW device layer is an opaque input: per device we are given the
  reported button array (a `List Bool`, `true` encoding `glfw.Press`), the
  reported axis array (`List ℚ`), and the binding set looked up by device
  name (`List (bind × Nat)`; Go iterates the `joybinds` map in an
  unspecified order, and every loop body only ever sets bits to `true`, so
  a list is an order-faithful model).
-/

namespace Input

/-- MaxPlayers is the maximum number of players to poll input for
(Go: `const MaxPlayers = 5`). -/
def MaxPlayers : Nat := 5

/-- Go: `const maxFrames = 60` — the depth of the history ring. -/
def maxFrames : Nat := 60

/-- Go: `const localPlayerPort = 0`. -/
def localPlayerPort : Nat := 0

/-- libretro constant `DeviceJoypad = 1` (RETRO_DEVICE_JOYPAD). -/
def DeviceJoypad : Nat := 1

/-- libretro constant RETRO_DEVICE_KEYBOARD = 3, a device kind distinct
from the joypad kind; used only in counterexamples. -/
def DeviceKeyboard : Nat := 3

/-- libretro constant `DeviceIDJoypadUp = 4`. -/
def DeviceIDJoypadUp : Nat := 4

/-- libretro constant `DeviceIDJoypadDown = 5`. -/
def DeviceIDJoypadDown : Nat := 5

/-- libretro constant `DeviceIDJoypadLeft = 6`. -/
def DeviceIDJoypadLeft : Nat := 6

/-- libretro constant `DeviceIDJoypadRight = 7`. -/
def DeviceIDJoypadRight : Nat := 7

/-- libretro constant `DeviceIDJoypadR3 = 15`. -/
def DeviceIDJoypadR3 : Nat := 15

/-- Go: `ActionMenuToggle = libretro.DeviceIDJoypadR3 + 1`. -/
def ActionMenuToggle : Nat := DeviceIDJoypadR3 + 1

/-- Go: `ActionLast = libretro.DeviceIDJoypadR3 + 5`, the exclusive bound
of the action enumeration (= 20). -/
def ActionLast : Nat := DeviceIDJoypadR3 + 5

/-- Go: `type playerState [ActionLast]bool`. -/
def playerState : Type := Fin ActionLast → Bool

/-- Go: `type inputState [MaxPlayers]playerState`. -/
def inputState : Type := Fin MaxPlayers → playerState

instance : DecidableEq playerState :=
  inferInstanceAs (DecidableEq (Fin ActionLast → Bool))

instance : DecidableEq inputState :=
  inferInstanceAs (DecidableEq (Fin MaxPlayers → playerState))

/-- Go zero value of `playerState` (all actions unpressed). -/
def emptyPS : playerState := fun _ => false

/-- Go zero value of `inputState`, written `inputState{}` in the source. -/
def emptyInput : inputState := fun _ => emptyPS

/-- a `playerState` with every action bit set; used as concrete live state
in counterexamples. -/
def fullPS : playerState := fun _ => true

/-- an `inputState` with every bit of every player set. -/
def fullInput : inputState := fun _ => fullPS

/-- Go: `const btn = 0`, the button binding kind. -/
def btn : Nat := 0

/-- Go: `const axis = 1`, the axis binding kind. -/
def axis : Nat := 1

/-- Go: `type bind struct { kind, index uint32; direction, threshold float32 }`. -/
structure bind where
  kind : Nat
  index : Nat
  direction : ℚ
  threshold : ℚ

/-- the ring-slot computation `(maxFrames + tick) % maxFrames` shared by
`index` and `getState` in the source; Go `%` on `int` is truncated
remainder, `Int.tmod`. -/
def slot (tick : Int) : Int := Int.tmod ((maxFrames : Int) + tick) (maxFrames : Int)

/-- Go `func index(offset int) int`: reads the global tick, adds the offset
and wraps it into the ring (`(maxFrames + tick) % maxFrames`); the tick is
passed explicitly here. -/
def index (tick offset : Int) : Int := slot (tick + offset)

/-- Go: `var buffers = []inputState{}` — the initial (empty) history slice. -/
def buffersInit : List inputState := []

/-- Go `func getState(port uint, tick int) playerState`, reading
`buffers[port][frame]` with `frame := (maxFrames + tick) % maxFrames`.
Both indexing steps can panic (modelled by `none`): `port` must be within
the slice, and `frame` must be a valid index of `inputState`, whose array
bound is `MaxPlayers` — not `maxFrames` — in the source. -/
def getStateM (bufs : List inputState) (port : Nat) (tick : Int) : Option playerState :=
  let frame := slot tick
  match bufs.get? port with
  | none => none
  | some st =>
    if h : 0 ≤ frame ∧ frame.toNat < MaxPlayers then some (st ⟨frame.toNat, h.2⟩)
    else none

/-- Go `func setState(port uint, st playerState)`: deep-copies the vector
(a value copy here) and writes `buffers[port][index(0)]`; either index can
panic. -/
def setStateM (bufs : List inputState) (port : Nat) (tick : Int) (v : playerState) :
    Option (List inputState) :=
  let frame := index tick 0
  match bufs.get? port with
  | none => none
  | some st =>
    if h : 0 ≤ frame ∧ frame.toNat < MaxPlayers then
      some (bufs.set port (Function.update st ⟨frame.toNat, h.2⟩ v))
    else none

/-- Go `func initializeBuffer(port uint)`: `for i := 0; i < maxFrames; i++ \x7b
buffers[port][i] = playerState{} \x7d`; each iteration indexes the slice at
`port` and the inner array (bound `MaxPlayers`) at `i`. -/
def initBufferM (bufs : List inputState) (port : Nat) : Option (List inputState) :=
  (List.range maxFrames).foldlM
    (fun b i =>
      match b.get? port with
      | none => none
      | some st =>
        if h : i < MaxPlayers then
          some (b.set port (Function.update st ⟨i, h⟩ emptyPS))
        else none)
    bufs

/-- a save-state blob as passed through `interface{}` in Go: either a value
whose dynamic type is `[]inputState`, or any other value (`foreign`), on
which the type assertion in `Unserialize` panics. -/
inductive SaveBlob where
  | inputBuffers (bufs : List inputState) : SaveBlob
  | foreign : SaveBlob

/-- Go `func Serialize() interface{}`: a deep copy of `buffers` (a value
copy in this embedding, which is exactly what the alias-free deep copy
achieves in Go). -/
def Serialize (bufs : List inputState) : SaveBlob := SaveBlob.inputBuffers bufs

/-- Go `func Unserialize(st interface{})`: deep-copies the blob and
replaces `buffers` with `copy.([]inputState)`. The type assertion panics
(`none`) on a foreign blob; a blob that is a `[]inputState` of any length
is installed without any shape check. -/
def Unserialize : SaveBlob → Option (List inputState)
  | SaveBlob.inputBuffers bufs => some bufs
  | SaveBlob.foreign => none

/-- Go `func getLatest(port uint) playerState`: reads the live polled
snapshot, not the ring. -/
def getLatest (polled : inputState) (port : Fin MaxPlayers) : playerState :=
  polled port

/-- Go `func State(port uint, device uint32, index uint, id uint) int16`:
the libretro input-state callback. The guard is the source's condition
`id >= 255 || index > 0 || port >= MaxPlayers || device&DeviceJoypad != 1
|| id > DeviceIDJoypadR3`; when it fails, the live snapshot bit
`getLatest(port)[id]` decides the result. -/
def State (polled : inputState) (port device idx id : Nat) : Int :=
  if h : 255 ≤ id ∨ 0 < idx ∨ MaxPlayers ≤ port ∨ device &&& DeviceJoypad ≠ 1 ∨
      DeviceIDJoypadR3 < id then 0
  else
    if getLatest polled
        ⟨port, by
          simp only [not_or, Nat.not_le, Nat.not_lt] at h
          exact h.2.2.1⟩
        ⟨id, by
          simp only [not_or, Nat.not_le, Nat.not_lt] at h
          have h5 := h.2.2.2.2
          simp only [DeviceIDJoypadR3] at h5
          simp only [ActionLast, DeviceIDJoypadR3]
          omega⟩ = true
    then 1 else 0

/-- button-binding test from `pollJoypads`:
`int(k.index) < len(buttonState) && Action(buttonState[k.index]) == Press`;
the short-circuit guard makes the array access safe, so the `Option`-free
form is faithful. -/
def buttonBindHits (buttons : List Bool) (k : bind) : Bool :=
  match buttons.get? k.index with
  | none => false
  | some b => b

/-- axis-binding test from `pollJoypads`:
`int(k.index) < len(axisState) && k.direction*axisState[k.index] >
k.threshold*k.direction`. -/
def axisBindHits (axes : List ℚ) (k : bind) : Bool :=
  match axes.get? k.index with
  | none => false
  | some a => decide (k.threshold * k.direction < k.direction * a)

/-- writes `polled[p][v] = true` for a `uint32` action `v` coming from a
binding table; Go panics when `v` is not below the array bound
`ActionLast`. -/
def setPS (st : playerState) (v : Nat) : Option playerState :=
  if h : v < ActionLast then some (Function.update st ⟨v, h⟩ true) else none

/-- sets one statically in-range directional-pad bit. -/
def setDir (st : playerState) (i : Fin ActionLast) : playerState :=
  Function.update st i true

/-- the `MapAxisToDPad` block at the bottom of the binding loop in
`pollJoypads`: two expressionless `switch` statements whose first cases
read `axisState[0]` and `axisState[1]` unconditionally, so a device
reporting fewer than two axes panics here. -/
def dpadSynth (axes : List ℚ) (st : playerState) : Option playerState :=
  match axes.get? 0 with
  | none => none
  | some a0 =>
    let st1 :=
      if a0 < -(1/2 : ℚ) then setDir st ⟨DeviceIDJoypadLeft, by decide⟩
      else if (1/2 : ℚ) < a0 then setDir st ⟨DeviceIDJoypadRight, by decide⟩
      else st
    match axes.get? 1 with
    | none => none
    | some a1 =>
      some (if (1/2 : ℚ) < a1 then setDir st1 ⟨DeviceIDJoypadDown, by decide⟩
        else if a1 < -(1/2 : ℚ) then setDir st1 ⟨DeviceIDJoypadUp, by decide⟩
        else st1)

/-- one iteration of `for k, v := range jb` in `pollJoypads`: the
`switch k.kind` button/axis test, followed (when `MapAxisToDPad` is on)
by the directional-pad synthesis, which thus runs once per binding
entry. -/
def bindStep (mapAxisToDPad : Bool) (buttons : List Bool) (axes : List ℚ)
    (st : playerState) (kv : bind × Nat) : Option playerState :=
  let hit : Bool :=
    if kv.1.kind = btn then buttonBindHits buttons kv.1
    else if kv.1.kind = axis then axisBindHits axes kv.1
    else false
  match (if hit then setPS st kv.2 else some st) with
  | none => none
  | some st1 => if mapAxisToDPad then dpadSynth axes st1 else some st1

/-- the per-device part of `pollJoypads`: the binding loop runs only when
`len(buttonState) > 0`. -/
def pollJoypadsOne (mapAxisToDPad : Bool) (buttons : List Bool) (axes : List ℚ)
    (jb : List (bind × Nat)) (st : playerState) : Option playerState :=
  if 0 < buttons.length then jb.foldlM (bindStep mapAxisToDPad buttons axes) st
  else some st

/-- ambient device and settings data consumed by one `Poll` call: the
keyboard rows of `keyBinds` paired with whether each key is down, the
per-player GLFW joystick data (buttons, axes, name-resolved bindings) and
the `MapAxisToDPad` setting. -/
structure PollEnv where
  keys : List (Bool × Nat)
  joyButtons : Fin MaxPlayers → List Bool
  joyAxes : Fin MaxPlayers → List ℚ
  joyBindings : Fin MaxPlayers → List (bind × Nat)
  mapAxisToDPad : Bool

/-- Go `func pollKeyboard()`: for every keyboard binding whose key is
pressed, sets `polled[localPlayerPort][v] = true`. -/
def pollKeyboard (keys : List (Bool × Nat)) (st : inputState) : Option inputState :=
  keys.foldlM
    (fun st kv =>
      if kv.1 then
        match setPS (st ⟨localPlayerPort, by decide⟩) kv.2 with
        | none => none
        | some ps => some (Function.update st ⟨localPlayerPort, by decide⟩ ps)
      else some st)
    st

/-- Go `func pollJoypads()`: `for p := range polled`, running the
per-device binding loop on player `p`'s slot of the live snapshot. -/
def pollJoypads (env : PollEnv) (st : inputState) : Option inputState :=
  (List.finRange MaxPlayers).foldlM
    (fun st p =>
      match pollJoypadsOne env.mapAxisToDPad (env.joyButtons p) (env.joyAxes p)
          (env.joyBindings p) (st p) with
      | none => none
      | some ps => some (Function.update st p ps))
    st

/-- one write of the nested loop in `getPressedReleased`:
`Pressed[p][k] = new[p][k] && !old[p][k]` and
`Released[p][k] = !new[p][k] && old[p][k]`. -/
def edgeStep (nw old : inputState) (p : Fin MaxPlayers)
    (pr : inputState × inputState) (k : Fin ActionLast) : inputState × inputState :=
  (Function.update pr.1 p (Function.update (pr.1 p) k (nw p k && !(old p k))),
   Function.update pr.2 p (Function.update (pr.2 p) k (!(nw p k) && old p k)))

/-- Go `func getPressedReleased(new, old inputState) (inputState, inputState)`:
the nested `for p ... for k ...` loop writing the module-level `Pressed`
and `Released` vectors (whose prior values are the explicit `prev`
argument) and returning them. -/
def getPressedReleased (prev : inputState × inputState) (nw old : inputState) :
    inputState × inputState :=
  (List.finRange MaxPlayers).foldl
    (fun pr p => (List.finRange ActionLast).foldl (edgeStep nw old p) pr) prev

/-- the module-level mutable state of the Go package: the live polled
snapshot, the history slice and the four exported edge/state vectors. -/
structure InputPkg where
  polled : inputState
  buffers : List inputState
  NewState : inputState
  OldState : inputState
  Pressed : inputState
  Released : inputState

/-- Go `func Poll()`: resets `polled`, runs `pollKeyboard` then
`pollJoypads`, publishes `NewState`, recomputes `Pressed`/`Released`
against `OldState`, and finally overwrites `OldState` with `NewState`.
No step touches `buffers`. -/
def Poll (env : PollEnv) (s : InputPkg) : Option InputPkg :=
  match pollKeyboard env.keys emptyInput with
  | none => none
  | some st1 =>
    match pollJoypads env st1 with
    | none => none
    | some st2 =>
      let nw := st2
      let pr := getPressedReleased (s.Pressed, s.Released) nw s.OldState
      some { polled := st2, buffers := s.buffers, NewState := nw,
             OldState := nw, Pressed := pr.1, Released := pr.2 }

/-- the `State` callback as it sits in the package: it consults only the
live `polled` snapshot of the module state, never `buffers`. -/
def StateCallback (s : InputPkg) (port device idx id : Nat) : Int :=
  State s.polled port device idx id

/-- the axis binding of the spec scenario: `{Axis, index=0, direction=-1,
threshold=0.5}`. -/
def kL : bind := { kind := axis, index := 0, direction := -1, threshold := 1/2 }

/-- the `Left` bit produced by one device poll of a device reporting one
button and the given axis values, bound only by the scenario binding `kL`
mapped to `DeviceIDJoypadLeft`, with `MapAxisToDPad` off. -/
def leftAxisPollBit (axes : List ℚ) : Bool :=
  (pollJoypadsOne false [true] axes [(kL, DeviceIDJoypadLeft)] emptyPS).elim false
    (fun st => st ⟨DeviceIDJoypadLeft, by decide⟩)

/-- a well-typed save blob holding 45 all-false frames — the shape-mismatch
payload of the spec scenario (depth 45 instead of 60). -/
def blob45 : List inputState := List.replicate 45 emptyInput

/-- live history of 60 frames, every bit set, to make mismatched restores
observable. -/
def liveBufs : List inputState := List.replicate 60 fullInput

/-- a poll environment with no keys pressed and no joypad data. -/
def env0 : PollEnv :=
  { keys := [], joyButtons := fun _ => [], joyAxes := fun _ => [],
    joyBindings := fun _ => [], mapAxisToDPad := false }

/-- a poll environment where the keyboard key bound to `DeviceIDJoypadUp`
is held down and no joypad reports anything. -/
def env1 : PollEnv :=
  { keys := [(true, DeviceIDJoypadUp)], joyButtons := fun _ => [],
    joyAxes := fun _ => [], joyBindings := fun _ => [], mapAxisToDPad := false }

/-- the Go package state at program start: empty history slice, all
vectors zero. -/
def pkg0 : InputPkg :=
  { polled := emptyInput, buffers := [], NewState := emptyInput,
    OldState := emptyInput, Pressed := emptyInput, Released := emptyInput }

/-- a package state whose live snapshot has every bit set. -/
def pkgFull : InputPkg :=
  { polled := fullInput, buffers := [], NewState := fullInput,
    OldState := emptyInput, Pressed := emptyInput, Released := emptyInput }

lemma edgeFold_apply (nw old : inputState) (p : Fin MaxPlayers)
    (ks : List (Fin ActionLast)) (pr : inputState × inputState)
    (q : Fin MaxPlayers) (a : Fin ActionLast) :
    ((ks.foldl (edgeStep nw old p) pr).1 q a =
      if q = p ∧ a ∈ ks then (nw p a && !(old p a)) else pr.1 q a) ∧
    ((ks.foldl (edgeStep nw old p) pr).2 q a =
      if q = p ∧ a ∈ ks then (!(nw p a) && old p a) else pr.2 q a) := by
  induction ks generalizing pr with
  | nil => simp
  | cons k ks ih =>
    rw [List.foldl_cons]
    obtain ⟨ih1, ih2⟩ := ih (edgeStep nw old p pr k)
    rw [ih1, ih2]
    constructor <;>
      · simp only [edgeStep, Function.update_apply, List.mem_cons]
        by_cases hq : q = p <;> by_cases hk : a = k <;> by_cases hm : a ∈ ks <;>
          subst_vars <;> simp_all

lemma edgeOuter_apply (nw old : inputState) (ps : List (Fin MaxPlayers))
    (pr : inputState × inputState) (q : Fin MaxPlayers) (a : Fin ActionLast) :
    ((ps.foldl
        (fun pr p => (List.finRange ActionLast).foldl (edgeStep nw old p) pr) pr).1 q a =
      if q ∈ ps then (nw q a && !(old q a)) else pr.1 q a) ∧
    ((ps.foldl
        (fun pr p => (List.finRange ActionLast).foldl (edgeStep nw old p) pr) pr).2 q a =
      if q ∈ ps then (!(nw q a) && old q a) else pr.2 q a) := by
  induction ps generalizing pr with
  | nil => simp
  | cons p ps ih =>
    rw [List.foldl_cons]
    obtain ⟨ih1, ih2⟩ := ih ((List.finRange ActionLast).foldl (edgeStep nw old p) pr)
    rw [ih1, ih2]
    obtain ⟨hin1, hin2⟩ := edgeFold_apply nw old p (List.finRange ActionLast) pr q a
    rw [hin1, hin2]
    simp only [List.mem_finRange, and_true, List.mem_cons]
    constructor <;>
      · by_cases hq : q = p <;> by_cases hm : q ∈ ps <;> subst_vars <;> simp_all

lemma dpadSynth_short (axes : List ℚ) (st : playerState) (h : axes.length < 2) :
    dpadSynth axes st = none := by
  match axes, h with
  | [], _ => rfl
  | [a], _ => rfl

/-- C5: after a poll cycle the edge vectors computed by
`getPressedReleased` satisfy, for every player `p` and action `a`,
`Pressed[p][a] = NewState[p][a] && !OldState[p][a]` and
`Released[p][a] = !NewState[p][a] && OldState[p][a]`; consequently
`Pressed[p][a]` and `Released[p][a]` are never both true. -/
theorem c5_edge_vectors (prevP prevR nw old : inputState)
    (p : Fin MaxPlayers) (a : Fin ActionLast) :
    (getPressedReleased (prevP, prevR) nw old).1 p a = (nw p a && !(old p a)) ∧
    (getPressedReleased (prevP, prevR) nw old).2 p a = (!(nw p a) && old p a) ∧
    ((getPressedReleased (prevP, prevR) nw old).1 p a &&
      (getPressedReleased (prevP, prevR) nw old).2 p a) = false := by
  obtain ⟨h1, h2⟩ :=
    edgeOuter_apply nw old (List.finRange MaxPlayers) (prevP, prevR) p a
  rw [if_pos (List.mem_finRange p)] at h1 h2
  unfold getPressedReleased
  refine ⟨h1, h2, ?_⟩
  rw [h1, h2]
  cases nw p a <;> cases old p a <;> rfl

/-- C2 (amended): the `State` callback returns 0 whenever its guard fires:
`id >= 255`, `index > 0`, `port >= MaxPlayers`, `device & DeviceJoypad != 1`
(the joypad-class mask test, not equality with the joypad kind), or
`id > DeviceIDJoypadR3`, regardless of the live input state. -/
theorem c2_out_of_contract_zero (pl : inputState) (port device idx id : Nat)
    (h : 255 ≤ id ∨ 0 < idx ∨ MaxPlayers ≤ port ∨ device &&& DeviceJoypad ≠ 1 ∨
      DeviceIDJoypadR3 < id) :
    State pl port device idx id = 0 := by
  unfold State
  rw [dif_pos h]

/-- witness for C2: the even device kind 2 (RETRO_DEVICE_MOUSE) fails the
mask test, and `State` returns 0 on it even with every live bit set. -/
theorem c2_out_of_contract_zero_witness :
    ((2 : Nat) &&& DeviceJoypad ≠ 1) ∧ State fullInput 0 2 0 0 = 0 :=
  ⟨by decide,
    c2_out_of_contract_zero fullInput 0 2 0 0
      (Or.inr (Or.inr (Or.inr (Or.inl (by decide)))))⟩

/-- counterexample to C2 as stated: `DeviceKeyboard = 3` is a device kind
other than the supported joypad kind, yet `3 & 1 = 1` passes the source's
mask test and `State` returns the live bit (here 1), not 0. -/
theorem c2_device_mask_cex :
    DeviceKeyboard ≠ DeviceJoypad ∧ State fullInput 0 DeviceKeyboard 0 0 = 1 := by
  decide

/-- C6 (amended): the ring-slot function `slot(t) = (60 + t) % 60` is
non-negative, below the depth, and periodic with period 60 — for every
tick `t ≥ -60`. (For `t < -60` the Go `%` returns a negative remainder
and both properties fail; see the counterexample.) -/
theorem c6_slot_range_periodic (t : Int) (h : -(maxFrames : Int) ≤ t) :
    0 ≤ slot t ∧ slot t < (maxFrames : Int) ∧
      slot (t + (maxFrames : Int)) = slot t := by
  have h0 : 0 ≤ (maxFrames : Int) + t := by
    simp only [maxFrames] at h ⊢
    omega
  obtain ⟨m, hm⟩ := Int.eq_ofNat_of_zero_le h0
  have h1 : (maxFrames : Int) + (t + (maxFrames : Int)) =
      ((m + maxFrames : Nat) : Int) := by
    push_cast
    omega
  unfold slot
  rw [hm, h1]
  have e1 : Int.tmod ((m : Nat) : Int) ((maxFrames : Nat) : Int) =
      ((m % maxFrames : Nat) : Int) := rfl
  have e2 : Int.tmod ((m + maxFrames : Nat) : Int) ((maxFrames : Nat) : Int) =
      (((m + maxFrames) % maxFrames : Nat) : Int) := rfl
  rw [e1, e2]
  refine ⟨by positivity, ?_, ?_⟩
  · exact_mod_cast Nat.mod_lt m (by decide : 0 < maxFrames)
  · exact_mod_cast congrArg (Nat.cast : Nat → Int) (Nat.add_mod_right m maxFrames)

/-- witness for C6: the amended statement at the concrete tick `-3`:
`slot(-3) = 57` is in range and equals `slot(57)`. -/
theorem c6_slot_range_periodic_witness :
    0 ≤ slot (-3) ∧ slot (-3) < (maxFrames : Int) ∧
      slot (-3 + (maxFrames : Int)) = slot (-3) :=
  c6_slot_range_periodic (-3) (by decide)

/-- counterexample to C6 as stated: at tick `-61` the Go `%` yields
`slot(-61) = -1`, which is negative (not in `[0, 60)`) and differs from
`slot(-61 + 60) = 59`, so neither the range property nor ring periodicity
holds for every integer tick. -/
theorem c6_negative_tick_cex :
    slot (-61) = -1 ∧ slot (-61) < 0 ∧ slot (-61) ≠ slot (-61 + (maxFrames : Int)) := by
  decide

/-- C7: `Serialize` followed by `Unserialize` of the resulting blob
succeeds and reproduces identical history reads at every port and tick;
the restored value equals the serialized one. In this value-semantics
embedding the deep, alias-free copy performed by the Go source is exactly
what makes `Serialize`/`Unserialize` value copies, so later mutation of
either the live rings or the restored rings cannot affect the blob. -/
theorem c7_serialize_roundtrip (bufs : List inputState) (port : Nat) (tick : Int) :
    ∃ restored, Unserialize (Serialize bufs) = some restored ∧
      getStateM restored port tick = getStateM bufs port tick ∧ restored = bufs :=
  ⟨bufs, rfl, rfl, rfl⟩

/-- C9: with `MapAxisToDPad` enabled, a device with a non-empty binding
set and at least one reported button panics in `pollJoypads` as soon as it
reports fewer than two axes (the directional-pad synthesis reads
`axisState[0]` and `axisState[1]` without a bounds check), while a device
with no bindings never reaches the synthesis — it runs once per binding
entry, not once per device. -/
theorem c9_dpad_bounds (buttons : List Bool) (axes : List ℚ)
    (jb : List (bind × Nat)) (st : playerState)
    (hb : buttons ≠ []) (hax : axes.length < 2) :
    (jb ≠ [] → pollJoypadsOne true buttons axes jb st = none) ∧
    pollJoypadsOne true buttons axes [] st = some st := by
  have hbl : 0 < buttons.length := List.length_pos.mpr hb
  constructor
  · intro hjb
    obtain ⟨kv, rest, rfl⟩ := List.exists_cons_of_ne_nil hjb
    unfold pollJoypadsOne
    rw [if_pos hbl]
    have hstep : bindStep true buttons axes st kv = none := by
      unfold bindStep
      dsimp only
      cases hs : (if (if kv.1.kind = btn then buttonBindHits buttons kv.1
          else if kv.1.kind = axis then axisBindHits axes kv.1 else false) = true
          then setPS st kv.2 else some st) with
      | none => rfl
      | some st1 => exact dpadSynth_short axes st1 hax
    rw [List.foldlM_cons, hstep]
    rfl
  · unfold pollJoypadsOne
    rw [if_pos hbl]
    rfl

/-- witness for C9: a one-button, zero-axis device with a single (button)
binding panics under `MapAxisToDPad`, and the same device with an empty
binding set polls unchanged. -/
theorem c9_dpad_bounds_witness :
    pollJoypadsOne true [true] []
      [({ kind := 0, index := 0, direction := 0, threshold := 0 }, 0)] emptyPS = none ∧
    pollJoypadsOne true [true] [] [] emptyPS = some emptyPS := by
  have h := c9_dpad_bounds [true] []
    [({ kind := 0, index := 0, direction := 0, threshold := 0 }, 0)] emptyPS
    (List.cons_ne_nil _ _) (by decide)
  exact ⟨h.1 (List.cons_ne_nil _ _), h.2⟩

/-- C10: at program start `buffers` is the empty slice, so every call to
`getState`, `setState` or `initializeBuffer` indexes past the end of the
slice and panics, for every port; and the history operations can only
succeed on all ports below `MaxPlayers` when `buffers` has been populated
to length at least `MaxPlayers`. -/
theorem c10_initial_buffers :
    buffersInit = ([] : List inputState) ∧
    (∀ (port : Nat) (tick : Int), getStateM buffersInit port tick = none) ∧
    (∀ (port : Nat) (tick : Int) (v : playerState),
      setStateM buffersInit port tick v = none) ∧
    (∀ port : Nat, initBufferM buffersInit port = none) ∧
    (∀ bufs : List inputState,
      (∀ p, p < MaxPlayers → (getStateM bufs p 0).isSome = true) →
        MaxPlayers ≤ bufs.length) := by
  refine ⟨rfl, fun port tick => rfl, fun port tick v => rfl, fun port => rfl, ?_⟩
  intro bufs h
  have h4 := h 4 (by decide)
  unfold getStateM at h4
  cases hg : bufs.get? 4 with
  | none => rw [hg] at h4; simp at h4
  | some st =>
    have hlen : 4 < bufs.length := List.get?_eq_some.mp hg |>.1
    simp only [MaxPlayers]
    omega

/-- witness for C10: the panics at concrete ports on the initial empty
slice, and the length precondition evaluated on a 5-element buffer. -/
theorem c10_initial_buffers_witness :
    getStateM buffersInit 3 0 = none ∧ setStateM buffersInit 0 0 emptyPS = none ∧
    initBufferM buffersInit 2 = none ∧
    MaxPlayers ≤ (List.replicate 5 emptyInput).length := by
  have h := c10_initial_buffers
  exact ⟨h.2.1 3 0, h.2.2.1 0 0 emptyPS, h.2.2.2.1 2,
    h.2.2.2.2 (List.replicate 5 emptyInput) (by decide)⟩

/-- C3 (amended): for every in-contract query — `port < MaxPlayers`,
`sub_index = 0`, the joypad device kind, and `id ≤ DeviceIDJoypadR3` (the
emulated-controller range; hotkey ids `16..19` are below `ActionLast` but
are rejected by the source) — `State` returns 1 iff the live polled
snapshot bit is set and 0 otherwise, and the result is unchanged by any
replacement of the history ring, which the query path never reads. -/
theorem c3_in_contract_live_bit (s : InputPkg) (port id : Nat)
    (hp : port < MaxPlayers) (hid : id ≤ DeviceIDJoypadR3) :
    (StateCallback s port DeviceJoypad 0 id =
      if s.polled ⟨port, hp⟩
          ⟨id, lt_of_le_of_lt hid (by decide : DeviceIDJoypadR3 < ActionLast)⟩ = true
        then 1 else 0) ∧
    ∀ bufs2 : List inputState,
      StateCallback { s with buffers := bufs2 } port DeviceJoypad 0 id =
        StateCallback s port DeviceJoypad 0 id := by
  have hid15 : id ≤ 15 := by simpa [DeviceIDJoypadR3] using hid
  have hcond : ¬(255 ≤ id ∨ 0 < (0 : Nat) ∨ MaxPlayers ≤ port ∨
      DeviceJoypad &&& DeviceJoypad ≠ 1 ∨ DeviceIDJoypadR3 < id) := by
    push_neg
    exact ⟨by omega, by omega, hp, by decide, by simpa [DeviceIDJoypadR3] using hid15⟩
  constructor
  · unfold StateCallback State
    rw [dif_neg hcond]
    rfl
  · intro bufs2
    rfl

/-- witness for C3: a concrete in-contract query against a fully-set live
snapshot returns the live bit, and swapping the history buffer does not
change the answer. -/
theorem c3_in_contract_live_bit_witness :
    (StateCallback pkgFull 0 DeviceJoypad 0 3 =
      if pkgFull.polled ⟨0, by decide⟩ ⟨3, by decide⟩ = true then 1 else 0) ∧
    StateCallback { pkgFull with buffers := [emptyInput] } 0 DeviceJoypad 0 3 =
      StateCallback pkgFull 0 DeviceJoypad 0 3 := by
  have h := c3_in_contract_live_bit pkgFull 0 3 (by decide) (by decide)
  exact ⟨h.1, h.2 [emptyInput]⟩

/-- counterexample to C3 as stated: `ActionMenuToggle = 16` is an
action id inside `[0, ActionLast)`, its live bit is set, yet `State`
returns 0 — the source's in-contract bound is `DeviceIDJoypadR3 = 15`,
not `ActionLast = 20`. -/
theorem c3_hotkey_id_cex :
    ActionMenuToggle < ActionLast ∧
    fullInput ⟨0, by decide⟩ ⟨ActionMenuToggle, by decide⟩ = true ∧
    State fullInput 0 DeviceJoypad 0 ActionMenuToggle = 0 := by
  decide

/-- C4 (amended): an axis binding sets its bound bit iff the axis index is
within the device's reported axis count and
`direction * axis_value > threshold * direction`; for the scenario binding
`{Axis, index=0, direction=-1, threshold=0.5}` mapped to `Left`, axis
value `-0.7` sets the bit, axis value `-0.3` ALSO sets the bit (since
`(-1)·(-0.3) > 0.5·(-1)`), and `+0.7` leaves it clear. -/
theorem c4_axis_binding (axes : List ℚ) (k : bind) (hk : k.kind = axis) :
    (∀ h : k.index < axes.length,
      (axisBindHits axes k = true ↔
        k.threshold * k.direction < k.direction * axes.get ⟨k.index, h⟩)) ∧
    (axes.length ≤ k.index → axisBindHits axes k = false) ∧
    leftAxisPollBit [-(7 : ℚ)/10] = true ∧
    leftAxisPollBit [-(3 : ℚ)/10] = true ∧
    leftAxisPollBit [(7 : ℚ)/10] = false := by
  refine ⟨?_, ?_, ?_, ?_, ?_⟩
  · intro h
    unfold axisBindHits
    rw [List.get?_eq_get h]
    simp
  · intro h
    unfold axisBindHits
    rw [List.get?_eq_none.mpr h]
  · simp only [leftAxisPollBit, pollJoypadsOne, bindStep, kL, axisBindHits,
      buttonBindHits, List.foldlM, List.get?, setPS, axis, btn]
    norm_num [Function.update, Option.elim]
    decide
  · simp only [leftAxisPollBit, pollJoypadsOne, bindStep, kL, axisBindHits,
      buttonBindHits, List.foldlM, List.get?, setPS, axis, btn]
    norm_num [Function.update, Option.elim]
    decide
  · simp only [leftAxisPollBit, pollJoypadsOne, bindStep, kL, axisBindHits,
      buttonBindHits, List.foldlM, List.get?, setPS, axis, btn]
    norm_num [Function.update, Option.elim]
    decide

/-- witness for C4: the characterization evaluated on the scenario binding
at axis value `-0.7` (bit set), together with the `+0.7` direction-mismatch
case. -/
theorem c4_axis_binding_witness :
    (axisBindHits [-(7 : ℚ)/10] kL = true ↔
      kL.threshold * kL.direction < kL.direction * ([-(7 : ℚ)/10].get ⟨0, by decide⟩)) ∧
    leftAxisPollBit [(7 : ℚ)/10] = false := by
  have h := c4_axis_binding [-(7 : ℚ)/10] kL rfl
  exact ⟨h.1 (by decide), h.2.2.2.2⟩

/-- counterexample to C4 as stated: the scenario asserts that axis value
`-0.3` leaves the `Left` bit clear under the binding
`{Axis, index=0, direction=-1, threshold=0.5}`, but the source's
comparison `direction*value > threshold*direction` is
`0.3 > -0.5` there, so polling sets the bit. -/
theorem c4_neg_threshold_cex : leftAxisPollBit [-(3 : ℚ)/10] = true := by
  simp only [leftAxisPollBit, pollJoypadsOne, bindStep, kL, axisBindHits,
    buttonBindHits, List.foldlM, List.get?, setPS, axis, btn]
  norm_num [Function.update, Option.elim]
  decide

/-- C8 (amended): `Poll` overwrites the live snapshot from the devices,
publishes it as `NewState`, recomputes the edge vectors against the prior
`OldState`, and copies `NewState` into `OldState` — but it never writes
the history ring: `buffers` is unchanged by every successful poll cycle.
The ring is only written by `setState`/`initializeBuffer`/`Unserialize`,
none of which `Poll` calls. -/
theorem c8_poll_effects (env : PollEnv) (s s' : InputPkg)
    (h : Poll env s = some s') :
    s'.buffers = s.buffers ∧ s'.NewState = s'.polled ∧ s'.OldState = s'.NewState ∧
    s'.Pressed = (getPressedReleased (s.Pressed, s.Released) s'.NewState s.OldState).1 ∧
    s'.Released = (getPressedReleased (s.Pressed, s.Released) s'.NewState s.OldState).2 := by
  unfold Poll at h
  cases h1 : pollKeyboard env.keys emptyInput with
  | none => rw [h1] at h; exact absurd h (by simp)
  | some st1 =>
    rw [h1] at h
    dsimp only at h
    cases h2 : pollJoypads env st1 with
    | none => rw [h2] at h; exact absurd h (by simp)
    | some st2 =>
      rw [h2] at h
      dsimp only at h
      simp only [Option.some.injEq] at h
      subst h
      exact ⟨rfl, rfl, rfl, rfl, rfl⟩

/-- witness for C8: the amended statement evaluated on a trivial device
environment and the initial package state. -/
theorem c8_poll_effects_witness :
    ((Poll env0 pkg0).getD pkg0).buffers = pkg0.buffers ∧
    ((Poll env0 pkg0).getD pkg0).OldState = ((Poll env0 pkg0).getD pkg0).NewState := by
  have hsome : (Poll env0 pkg0).isSome = true := by decide
  have h : Poll env0 pkg0 = some ((Poll env0 pkg0).getD pkg0) := by
    cases hF : Poll env0 pkg0 with
    | none => rw [hF] at hsome; exact absurd hsome (by simp)
    | some v => simp [hF]
  have hc := c8_poll_effects env0 pkg0 ((Poll env0 pkg0).getD pkg0) h
  exact ⟨hc.1, hc.2.2.1⟩

/-- counterexample to C8 as stated: with only the `Up`-bound keyboard key
held, a poll cycle from the initial state succeeds and sets
`NewState[0][Up]`, yet `buffers` still has length 0 afterwards and the
read of the current tick's slot panics — no freshly polled vector was
committed to the ring. -/
theorem c8_no_ring_commit_cex :
    ((Poll env1 pkg0).map fun s =>
      (s.NewState ⟨0, by decide⟩ ⟨DeviceIDJoypadUp, by decide⟩,
        s.buffers.length, getStateM s.buffers 0 0)) = some (true, 0, none) := by
  decide

/-- C1 evaluated at the failing input (code bug): restoring a well-typed
blob holding 45 frames into an engine whose live rings hold 60 frames does
NOT fail — `Unserialize` performs no shape check and silently replaces the
rings, truncating history and changing `getState` results; only a blob of
a foreign dynamic type makes the type assertion panic. -/
theorem c1_restore_shape_unchecked :
    Unserialize (Serialize blob45) = some blob45 ∧
    blob45.length = 45 ∧ liveBufs.length = 60 ∧ blob45.length ≠ liveBufs.length ∧
    getStateM blob45 0 0 ≠ getStateM liveBufs 0 0 ∧
    Unserialize SaveBlob.foreign = none := by
  refine ⟨rfl, by simp [blob45], by simp [liveBufs], by simp [blob45, liveBufs], ?_, rfl⟩
  decide

end Input
